import Mathlib

/-!
Verification of the `christmas_star` module of `rillomas/rust_sample_2`.

The geometry pipeline (`calculate_normal`, `add_partial_vertices`,
`generate_vertices`) is embedded as pure functions over `ℝ`-valued vectors
(`f32` arithmetic is modelled by exact real arithmetic).  The GPU-facing
lifecycle (`init`, `init_buffers`, `close`, `update`) is embedded with the
external `glutil`/OpenGL collaborators abstracted as an oracle environment
(`GlEnv`) recording the result of each fallible call, and resource state
passed explicitly.
-/

/-- `cgmath::Vector3<f32>` modelled over `ℝ`. -/
structure cgmath.Vector3 where
  x : ℝ
  y : ℝ
  z : ℝ

/-- `cgmath::Vector4<f32>` modelled over `ℝ`. -/
structure cgmath.Vector4 where
  x : ℝ
  y : ℝ
  z : ℝ
  w : ℝ

/-- `cgmath`'s componentwise subtraction `a.sub(b)`. -/
def cgmath.Vector3.sub (a b : cgmath.Vector3) : cgmath.Vector3 :=
  ⟨a.x - b.x, a.y - b.y, a.z - b.z⟩

/-- `cgmath`'s cross product `a.cross(b)`. -/
def cgmath.Vector3.cross (a b : cgmath.Vector3) : cgmath.Vector3 :=
  ⟨a.y * b.z - a.z * b.y, a.z * b.x - a.x * b.z, a.x * b.y - a.y * b.x⟩

/-- `cgmath`'s scalar multiplication `a.mul_s(s)`. -/
def cgmath.Vector3.mul_s (a : cgmath.Vector3) (s : ℝ) : cgmath.Vector3 :=
  ⟨a.x * s, a.y * s, a.z * s⟩

/-- `cgmath`'s Euclidean length `a.length()` (square root of the dot
product of `a` with itself). -/
noncomputable def cgmath.Vector3.length (a : cgmath.Vector3) : ℝ :=
  Real.sqrt (a.x * a.x + a.y * a.y + a.z * a.z)

/-- `cgmath`'s `a.normalize()`, i.e. `a.mul_s(1 / a.length())`. -/
noncomputable def cgmath.Vector3.normalize (a : cgmath.Vector3) : cgmath.Vector3 :=
  a.mul_s (1 / a.length)

/-- The `Geometry` shape-parameter struct. -/
structure Geometry where
  center : cgmath.Vector3
  left_canyon_offset : cgmath.Vector3
  right_canyon_offset : cgmath.Vector3
  long_spike_length : ℝ
  short_spike_length : ℝ
  thickness : ℝ

/-- One generated vertex: position, normal and diffuse color. -/
structure Vertex where
  position : cgmath.Vector3
  normal : cgmath.Vector3
  diffuse_color : cgmath.Vector4

/-- `Vertex::new`. -/
def Vertex.new (pos : cgmath.Vector3) (norm : cgmath.Vector3) (diffuse : cgmath.Vector4) : Vertex :=
  ⟨pos, norm, diffuse⟩

/-- A default vertex used only as the out-of-range fallback of `List.getD`
in theorem statements (every index used is in range). -/
def fallback_vertex : Vertex :=
  ⟨⟨0, 0, 0⟩, ⟨0, 0, 0⟩, ⟨0, 0, 0, 0⟩⟩

/-- `calculate_normal`: `e0 = v1 - v0`, `e1 = v2 - v0`,
result `e0.cross(e1).normalize()`. -/
noncomputable def calculate_normal (v0 v1 v2 : cgmath.Vector3) : cgmath.Vector3 :=
  let e0 := v1.sub v0
  let e1 := v2.sub v0
  (e0.cross e1).normalize

/-- `add_partial_vertices`: builds one quadrant (four faces sharing the
raised apex) and appends its 12 vertices to `vertices`, exactly in the
source's push order. -/
noncomputable def add_partial_vertices (center left_canyon_offset
    right_canyon_offset left_long_spike right_long_spike short_spike : cgmath.Vector3)
    (depth : ℝ) (vertices : List Vertex) : List Vertex :=
  let lcox := left_canyon_offset.x
  let lcoy := left_canyon_offset.y
  let rcox := right_canyon_offset.x
  let rcoy := right_canyon_offset.y
  let cx := center.x
  let cy := center.y
  let cz := center.z
  let llsx := left_long_spike.x
  let llsy := left_long_spike.y
  let rlsx := right_long_spike.x
  let rlsy := right_long_spike.y
  let ssx := short_spike.x
  let ssy := short_spike.y
  let top := cz + depth
  let c : cgmath.Vector3 := ⟨cx, cy, top⟩
  let lc : cgmath.Vector3 := ⟨cx + lcox, cy + lcoy, cz⟩
  let rc : cgmath.Vector3 := ⟨cx + rcox, cy + rcoy, cz⟩
  let ss : cgmath.Vector3 := ⟨cx + ssx, cy + ssy, cz⟩
  let ll : cgmath.Vector3 := ⟨cx + llsx, cy + llsy, cz⟩
  let rl : cgmath.Vector3 := ⟨cx + rlsx, cy + rlsy, cz⟩
  let n0 := calculate_normal c lc ll
  let diffuse : cgmath.Vector4 := ⟨0.9, 0.9, 0.0, 1.0⟩
  let n1 := calculate_normal c ss lc
  let n2 := calculate_normal c rc ss
  let n3 := calculate_normal c rl rc
  vertices ++
    [Vertex.new c n0 diffuse, Vertex.new ll n0 diffuse, Vertex.new lc n0 diffuse,
     Vertex.new c n1 diffuse, Vertex.new lc n1 diffuse, Vertex.new ss n1 diffuse,
     Vertex.new c n2 diffuse, Vertex.new ss n2 diffuse, Vertex.new rc n2 diffuse,
     Vertex.new c n3 diffuse, Vertex.new rc n3 diffuse, Vertex.new rl n3 diffuse]

/-- `generate_vertices`: the four quadrant calls (top right, bottom right,
bottom left, top left) with the source's sign-flipped offsets. -/
noncomputable def generate_vertices (geom : Geometry) : List Vertex :=
  let c := geom.center
  let ls := geom.long_spike_length
  let ss := geom.short_spike_length
  let lco := geom.left_canyon_offset
  let rco := geom.right_canyon_offset
  let depth := geom.thickness * 0.5
  let vertices : List Vertex := []
  let vertices := add_partial_vertices c lco rco
    ⟨0.0, ls, 0.0⟩ ⟨ls, 0.0, 0.0⟩ ⟨ss, ss, 0.0⟩ depth vertices
  let vertices := add_partial_vertices c
    ⟨rco.x, -rco.y, lco.z⟩ ⟨lco.x, -lco.y, rco.z⟩
    ⟨ls, 0.0, 0.0⟩ ⟨0.0, -ls, 0.0⟩ ⟨ss, -ss, 0.0⟩ depth vertices
  let vertices := add_partial_vertices c
    ⟨-lco.x, -lco.y, lco.z⟩ ⟨-rco.x, -rco.y, rco.z⟩
    ⟨0.0, -ls, 0.0⟩ ⟨-ls, 0.0, 0.0⟩ ⟨-ss, -ss, 0.0⟩ depth vertices
  let vertices := add_partial_vertices c
    ⟨-rco.x, rco.y, lco.z⟩ ⟨-lco.x, lco.y, rco.z⟩
    ⟨-ls, 0.0, 0.0⟩ ⟨0.0, ls, 0.0⟩ ⟨-ss, ss, 0.0⟩ depth vertices
  vertices

/-- The `GlResource` struct: GPU handles and the uploaded vertex count. -/
structure GlResource where
  shader_program : Nat
  vao : Nat
  vbo : Nat
  indice_num : Int
  deriving DecidableEq

/-- Modelled from the spec: `light::Directional` (outside `src/`) is "a named
uniform identifier plus a mutable 3D position". -/
structure Directional where
  name : String
  position : cgmath.Vector3

/-- Modelled from the spec: `control::State` (outside `src/`) is "a read-only
structure with four independent boolean directional flags". -/
structure ControlState where
  move_up : Bool
  move_down : Bool
  move_left : Bool
  move_right : Bool

/-- The `ChristmasStar` object: geometry parameters, GPU resource state and
the directional-light state. -/
structure ChristmasStar where
  geometry : Geometry
  resource : GlResource
  directional : Directional

/-- `ChristmasStar::new`: default shape parameters, zeroed GPU resource,
light at `(0.4, 0.5, 0.5)`. -/
noncomputable def ChristmasStar.new : ChristmasStar where
  geometry :=
    { center := ⟨0.0, 0.0, 0.0⟩
      left_canyon_offset := ⟨0.05, 0.1, 0.0⟩
      right_canyon_offset := ⟨0.1, 0.05, 0.0⟩
      long_spike_length := 0.8
      short_spike_length := 0.3
      thickness := 0.1 }
  resource := { shader_program := 0, vao := 0, vbo := 0, indice_num := 0 }
  directional := { name := "direction_to_light", position := ⟨0.4, 0.5, 0.5⟩ }

/-- `ChristmasStar::update` (from `impl game::Object`): four independent
input-gated translations of the light position by the fixed step `0.01`;
always returns `Ok(())`, so the model returns just the updated object. -/
noncomputable def ChristmasStar.update (s : ChristmasStar) (cs : ControlState) :
    ChristmasStar :=
  let delta : ℝ := 0.01
  let p0 := s.directional.position
  let p1 := if cs.move_up then { p0 with y := p0.y + delta } else p0
  let p2 := if cs.move_down then { p1 with y := p1.y + -delta } else p1
  let p3 := if cs.move_left then { p2 with x := p2.x + -delta } else p2
  let p4 := if cs.move_right then { p3 with x := p3.x + delta } else p3
  { s with directional := { s.directional with position := p4 } }

/-- Modelled from the spec: the external `glutil`/OpenGL collaborator of
`init` ("read(path) -> source|Error", "compile(source, stage) ->
handle|Error", "link(vs, fs) -> program|Error", "check_error() ->
Result<(), Error>").  Each field records the outcome of one external call
site; `check_error` outcomes inside `init_buffers` are indexed by call
order. -/
structure GlEnv where
  read_vertex_shader : Except String String
  read_fragment_shader : Except String String
  compile_vertex_shader : Except String Nat
  compile_fragment_shader : Except String Nat
  link_program : Except String Nat
  gen_vao : Nat
  gen_vbo : Nat
  check : Nat → Except String Unit

/-- `x` is an `Err` outcome. -/
def failed {α : Type} (x : Except String α) : Prop :=
  ∃ e, x = Except.error e

/-- Runs the `check_error` call sites whose indices are listed, in order,
stopping at the first error (the `try!` chain of `init_buffers`). -/
def run_checks (env : GlEnv) : List Nat → Except String Unit
  | [] => Except.ok ()
  | i :: rest =>
    match env.check i with
    | Except.error e => Except.error e
    | Except.ok () => run_checks env rest

/-- `init_buffers`: the 11 `check_error` call sites of the source in order
(after GenVertexArrays, BindVertexArray, GenBuffers, BindBuffer,
BufferData, the three EnableVertexAttribArray and the three
VertexAttribPointer calls); on success returns the generated `(vao, vbo)`
names and the vertex count `vertices.len()`. -/
noncomputable def init_buffers (env : GlEnv) (geom : Geometry) :
    Except String (Nat × Nat × Int) :=
  match run_checks env (List.range 11) with
  | Except.error e => Except.error e
  | Except.ok () =>
      Except.ok (env.gen_vao, env.gen_vbo, ((generate_vertices geom).length : Int))

/-- `ChristmasStar::init`: read both shaders (wrapping read errors), compile
them, link, then `init_buffers`; only on full success is `self.resource`
assigned.  Returns the updated object and the propagated error, if any. -/
noncomputable def ChristmasStar.init (s : ChristmasStar) (env : GlEnv) :
    ChristmasStar × Option String :=
  match env.read_vertex_shader with
  | Except.error e => (s, some ("Failed reading vertex shader: " ++ e))
  | Except.ok _vss =>
  match env.read_fragment_shader with
  | Except.error e => (s, some ("Failed reading fragment shader: " ++ e))
  | Except.ok _fss =>
  match env.compile_vertex_shader with
  | Except.error e => (s, some e)
  | Except.ok _vs =>
  match env.compile_fragment_shader with
  | Except.error e => (s, some e)
  | Except.ok _fs =>
  match env.link_program with
  | Except.error e => (s, some e)
  | Except.ok prog =>
  match init_buffers env s.geometry with
  | Except.error e => (s, some e)
  | Except.ok (vao, vbo, ind_num) =>
      ({ s with resource :=
          { shader_program := prog, vao := vao, vbo := vbo, indice_num := ind_num } },
       none)

/-- `ChristmasStar::close`: zeroes `shader_program`, `vbo` and `vao`
(`indice_num` is not touched by the source). -/
def ChristmasStar.close (s : ChristmasStar) : ChristmasStar :=
  { s with resource :=
      { s.resource with shader_program := 0, vbo := 0, vao := 0 } }

/-- The GL object names `close` actually frees: it passes `r.vbo`,
`r.vao` and `r.shader_program` to `glDeleteBuffers`, `glDeleteVertexArrays`
and `glDeleteProgram`, and per the GL specification those calls silently
ignore the name 0, so only the nonzero handles are freed. -/
def close_frees (r : GlResource) : List Nat :=
  [r.vbo, r.vao, r.shader_program].filter (fun h => h != 0)

/-- C2: for every `Geometry` parameter set, `generate_vertices` returns
exactly 48 vertices (4 quadrants × 4 faces × 3 vertices).  Determinism and
purity hold by construction of the embedding: `generate_vertices` is a pure
function of its `Geometry` argument, and the universally quantified length
equation below is a statement about that same function on every input. -/
theorem generate_vertices_length_eq_48 (g : Geometry) :
    (generate_vertices g).length = 48 := by
  simp [generate_vertices, add_partial_vertices]

/-- C3: the top-right quadrant's long-spike tip (vertex index 1) is
`(center.x, center.y + long_spike_length, center.z)` and the bottom-left
quadrant's corresponding tip (vertex index 25, the second vertex of the
third quadrant block) is `(center.x, center.y - long_spike_length,
center.z)`, for every parameter set. -/
theorem generate_vertices_mirror_tips (g : Geometry) :
    ((generate_vertices g).getD 1 fallback_vertex).position
        = ⟨g.center.x, g.center.y + g.long_spike_length, g.center.z⟩ ∧
    ((generate_vertices g).getD 25 fallback_vertex).position
        = ⟨g.center.x, g.center.y - g.long_spike_length, g.center.z⟩ := by
  constructor
  · simp [generate_vertices, add_partial_vertices, Vertex.new]
    norm_num
  · simp [generate_vertices, add_partial_vertices, Vertex.new, sub_eq_add_neg]
    norm_num

/-- C4: with the default parameters built by `ChristmasStar::new`
(`long_spike_length = 0.8`, `short_spike_length = 0.3`, `thickness = 0.1`,
default canyon offsets, center at the origin), the apex vertex of the first
face of the first quadrant is `(0.0, 0.0, 0.05)`, i.e.
`center.z + thickness / 2`. -/
theorem generate_vertices_default_apex :
    ((generate_vertices ChristmasStar.new.geometry).getD 0 fallback_vertex).position
      = ⟨0.0, 0.0, 0.05⟩ := by
  simp [generate_vertices, add_partial_vertices, ChristmasStar.new, Vertex.new]
  norm_num

/-- C9: the z components of the canyon-offset and spike vectors are ignored:
for every parameter set, every generated vertex at an index divisible by 3
(the apex copies) has `position.z = center.z + thickness / 2`, and every
other vertex has `position.z = center.z`. -/
theorem generate_vertices_z_components (g : Geometry) (i : Nat) (h : i < 48) :
    ((generate_vertices g).getD i fallback_vertex).position.z
      = if i % 3 = 0 then g.center.z + g.thickness / 2 else g.center.z := by
  interval_cases i <;>
    simp [generate_vertices, add_partial_vertices, Vertex.new] <;> ring

/-- Witness for C9's hypothesis `i < 48`, at the default geometry and the
indices 0 (an apex copy) and 1 (a base vertex). -/
theorem generate_vertices_z_components_witness :
    (0 < 48 ∧ 1 < 48) ∧
    ((generate_vertices ChristmasStar.new.geometry).getD 0 fallback_vertex).position.z
      = (if 0 % 3 = 0 then ChristmasStar.new.geometry.center.z
          + ChristmasStar.new.geometry.thickness / 2
         else ChristmasStar.new.geometry.center.z) ∧
    ((generate_vertices ChristmasStar.new.geometry).getD 1 fallback_vertex).position.z
      = (if 1 % 3 = 0 then ChristmasStar.new.geometry.center.z
          + ChristmasStar.new.geometry.thickness / 2
         else ChristmasStar.new.geometry.center.z) :=
  ⟨⟨by decide, by decide⟩,
   generate_vertices_z_components ChristmasStar.new.geometry 0 (by decide),
   generate_vertices_z_components ChristmasStar.new.geometry 1 (by decide)⟩

/-- C5: one `update` call with `move_up = true` and all other flags false
adds exactly `0.01` to the light position's y coordinate and leaves x and z
unchanged; one call with `move_up = true` and `move_down = true`
simultaneously leaves the y coordinate unchanged (the two deltas cancel in
the exact-arithmetic model of `f32`). -/
theorem update_light_position (s : ChristmasStar) :
    ((s.update ⟨true, false, false, false⟩).directional.position.y
        = s.directional.position.y + 0.01 ∧
     (s.update ⟨true, false, false, false⟩).directional.position.x
        = s.directional.position.x ∧
     (s.update ⟨true, false, false, false⟩).directional.position.z
        = s.directional.position.z) ∧
    (s.update ⟨true, true, false, false⟩).directional.position.y
        = s.directional.position.y := by
  refine ⟨⟨?_, ?_, ?_⟩, ?_⟩ <;> simp [ChristmasStar.update]

/-- C1 counterexample: the claim "each face's normal equals
`calculate_normal` applied to that face's own three vertices in the order
they are emitted" is false.  At the default geometry, the first face of the
first quadrant is emitted as `(C, LL, LC)` but its stored normal is
`calculate_normal(C, LC, LL)` — the last two arguments swapped — which is
the negation of the emission-order normal and differs from it. -/
theorem first_face_normal_not_emission_order :
    ¬ (((generate_vertices ChristmasStar.new.geometry).getD 0 fallback_vertex).normal
      = calculate_normal
          ((generate_vertices ChristmasStar.new.geometry).getD 0 fallback_vertex).position
          ((generate_vertices ChristmasStar.new.geometry).getD 1 fallback_vertex).position
          ((generate_vertices ChristmasStar.new.geometry).getD 2 fallback_vertex).position) := by
  intro h
  simp [generate_vertices, add_partial_vertices, Vertex.new, calculate_normal,
        cgmath.Vector3.sub, cgmath.Vector3.cross, cgmath.Vector3.normalize,
        cgmath.Vector3.mul_s, cgmath.Vector3.length, ChristmasStar.new] at h
  norm_num at h
  obtain ⟨h1, -, -⟩ := h
  have h2 : (0:ℝ) < Real.sqrt 160000 := Real.sqrt_pos.mpr (by norm_num)
  have h3 : (0:ℝ) < Real.sqrt 453 := Real.sqrt_pos.mpr (by norm_num)
  have hx : (0:ℝ) < 7 / 200 * (Real.sqrt 160000 / Real.sqrt 453) := by positivity
  linarith

/-- C1 (amended): for every quadrant built by `add_partial_vertices`, the
four emitted faces are `(C, LL, LC)`, `(C, LC, SS)`, `(C, SS, RC)`,
`(C, RC, RL)`, all three vertices of a face carry that face's single
normal, and each face's normal equals `calculate_normal` applied to the
face's first vertex followed by its last two vertices in *swapped* order
(`n0 = calculate_normal(C, LC, LL)`, `n1 = calculate_normal(C, SS, LC)`,
`n2 = calculate_normal(C, RC, SS)`, `n3 = calculate_normal(C, RL, RC)`) —
the negation of the emission-order normal, not the emission-order normal
itself. -/
theorem add_partial_vertices_faces (center lco rco lls rls ssv : cgmath.Vector3)
    (depth : ℝ) (vs : List Vertex) :
    add_partial_vertices center lco rco lls rls ssv depth vs =
      (let C : cgmath.Vector3 := ⟨center.x, center.y, center.z + depth⟩
       let LC : cgmath.Vector3 := ⟨center.x + lco.x, center.y + lco.y, center.z⟩
       let RC : cgmath.Vector3 := ⟨center.x + rco.x, center.y + rco.y, center.z⟩
       let SS : cgmath.Vector3 := ⟨center.x + ssv.x, center.y + ssv.y, center.z⟩
       let LL : cgmath.Vector3 := ⟨center.x + lls.x, center.y + lls.y, center.z⟩
       let RL : cgmath.Vector3 := ⟨center.x + rls.x, center.y + rls.y, center.z⟩
       let col : cgmath.Vector4 := ⟨0.9, 0.9, 0.0, 1.0⟩
       let n0 := calculate_normal C LC LL
       let n1 := calculate_normal C SS LC
       let n2 := calculate_normal C RC SS
       let n3 := calculate_normal C RL RC
       vs ++ [⟨C, n0, col⟩, ⟨LL, n0, col⟩, ⟨LC, n0, col⟩,
              ⟨C, n1, col⟩, ⟨LC, n1, col⟩, ⟨SS, n1, col⟩,
              ⟨C, n2, col⟩, ⟨SS, n2, col⟩, ⟨RC, n2, col⟩,
              ⟨C, n3, col⟩, ⟨RC, n3, col⟩, ⟨RL, n3, col⟩]) := rfl

/-- Length of a scalar multiple: `|s|` times the length. -/
theorem cgmath.Vector3.length_mul_s (a : cgmath.Vector3) (s : ℝ) :
    (a.mul_s s).length = |s| * a.length := by
  unfold cgmath.Vector3.length cgmath.Vector3.mul_s
  rw [show a.x * s * (a.x * s) + a.y * s * (a.y * s) + a.z * s * (a.z * s)
      = s ^ 2 * (a.x * a.x + a.y * a.y + a.z * a.z) by ring,
    Real.sqrt_mul (sq_nonneg s), Real.sqrt_sq_eq_abs]

/-- Normalizing a nonzero vector yields a unit-length vector. -/
theorem cgmath.Vector3.normalize_length (a : cgmath.Vector3)
    (h : a ≠ ⟨0, 0, 0⟩) : a.normalize.length = 1 := by
  have hc : a.x ≠ 0 ∨ a.y ≠ 0 ∨ a.z ≠ 0 := by
    by_contra hall
    push_neg at hall
    obtain ⟨hx, hy, hz⟩ := hall
    exact h (by cases a; simp_all)
  have hs : 0 < a.x * a.x + a.y * a.y + a.z * a.z := by
    rcases hc with hx | hy | hz
    · nlinarith [mul_self_pos.mpr hx, mul_self_nonneg a.y, mul_self_nonneg a.z]
    · nlinarith [mul_self_pos.mpr hy, mul_self_nonneg a.x, mul_self_nonneg a.z]
    · nlinarith [mul_self_pos.mpr hz, mul_self_nonneg a.x, mul_self_nonneg a.y]
  have hL : 0 < a.length := Real.sqrt_pos.mpr hs
  rw [cgmath.Vector3.normalize, cgmath.Vector3.length_mul_s,
    abs_of_pos (by positivity : (0:ℝ) < 1 / a.length)]
  field_simp

/-- The spec's formula for the normal-calculation helper:
`normalize(cross(v1 - v0, v2 - v0))`. -/
noncomputable def spec_normal (v0 v1 v2 : cgmath.Vector3) : cgmath.Vector3 :=
  ((v1.sub v0).cross (v2.sub v0)).normalize

/-- C8: `calculate_normal` returns `normalize(cross(v1 - v0, v2 - v0))`
(the spec's formula, `spec_normal`), and whenever the triangle is
non-degenerate — its edge cross product is nonzero, which is exactly
"non-collinear and pairwise distinct" — the result has unit length. -/
theorem calculate_normal_spec_and_unit (v0 v1 v2 : cgmath.Vector3) :
    calculate_normal v0 v1 v2 = spec_normal v0 v1 v2 ∧
    ((v1.sub v0).cross (v2.sub v0) ≠ ⟨0, 0, 0⟩ →
      (calculate_normal v0 v1 v2).length = 1) :=
  ⟨rfl, fun h => cgmath.Vector3.normalize_length _ h⟩

/-- Witness for C8's non-degeneracy hypothesis at the concrete triangle
`(0,0,0)`, `(1,0,0)`, `(0,1,0)`. -/
theorem calculate_normal_spec_and_unit_witness :
    ((cgmath.Vector3.mk 1 0 0).sub ⟨0, 0, 0⟩).cross
        ((cgmath.Vector3.mk 0 1 0).sub ⟨0, 0, 0⟩) ≠ ⟨0, 0, 0⟩ ∧
    (calculate_normal ⟨0, 0, 0⟩ ⟨1, 0, 0⟩ ⟨0, 1, 0⟩).length = 1 := by
  have h : ((cgmath.Vector3.mk 1 0 0).sub ⟨0, 0, 0⟩).cross
      ((cgmath.Vector3.mk 0 1 0).sub ⟨0, 0, 0⟩) ≠ ⟨0, 0, 0⟩ := by
    simp [cgmath.Vector3.cross, cgmath.Vector3.sub]
  exact ⟨h, (calculate_normal_spec_and_unit ⟨0, 0, 0⟩ ⟨1, 0, 0⟩ ⟨0, 1, 0⟩).2 h⟩

/-- `run_checks` fails exactly when one of the listed `check_error` call
sites fails. -/
theorem run_checks_error_iff (env : GlEnv) (l : List Nat) :
    failed (run_checks env l) ↔ ∃ i ∈ l, failed (env.check i) := by
  induction l with
  | nil => simp [run_checks, failed]
  | cons j rest ih =>
    cases hcj : env.check j with
    | error e =>
      simp [run_checks, hcj, failed]
    | ok u =>
      cases u
      rw [show run_checks env (j :: rest) = run_checks env rest by
        simp [run_checks, hcj]]
      rw [ih]
      constructor
      · rintro ⟨i, hi, hf⟩
        exact ⟨i, List.mem_cons_of_mem _ hi, hf⟩
      · rintro ⟨i, hi, hf⟩
        rcases List.mem_cons.mp hi with hij | hi2
        · subst hij
          rw [hcj] at hf
          obtain ⟨e, he⟩ := hf
          cases he
        · exact ⟨i, hi2, hf⟩

/-- `init_buffers` fails exactly when one of its 11 `check_error` call
sites fails. -/
theorem init_buffers_error_iff (env : GlEnv) (geom : Geometry) :
    failed (init_buffers env geom) ↔ ∃ i < 11, failed (env.check i) := by
  unfold init_buffers
  cases hr : run_checks env (List.range 11) with
  | error e =>
    have : failed (run_checks env (List.range 11)) := ⟨e, hr⟩
    rw [run_checks_error_iff] at this
    simp only [List.mem_range] at this
    simp [failed]
    exact this
  | ok u =>
    cases u
    have : ¬ failed (run_checks env (List.range 11)) := by
      rw [hr]; rintro ⟨e, he⟩; cases he
    rw [run_checks_error_iff] at this
    simp only [List.mem_range] at this
    simp [failed]
    intro i hi
    intro e he
    exact this ⟨i, hi, e, he⟩

/-- "Some fallible step of `init` fails": one of reading, compiling or
linking either shader, or one of the buffer-setup error checks, reports an
error. -/
def init_step_fails (env : GlEnv) : Prop :=
  failed env.read_vertex_shader ∨ failed env.read_fragment_shader ∨
  failed env.compile_vertex_shader ∨ failed env.compile_fragment_shader ∨
  failed env.link_program ∨ ∃ i < 11, failed (env.check i)

/-- C6: `init` returns an error exactly when some fallible step fails, and
whenever it returns an error the object (in particular its stored GPU
resource handles and vertex count) is unchanged from its prior state — no
partial assignment of `self.resource` is observable. -/
theorem init_error_behavior (env : GlEnv) (s : ChristmasStar) :
    ((s.init env).2 ≠ none ↔ init_step_fails env) ∧
    (∀ e, (s.init env).2 = some e → (s.init env).1 = s) := by
  unfold ChristmasStar.init
  cases hrv : env.read_vertex_shader with
  | error e => simp [init_step_fails, failed, hrv]
  | ok vss =>
    cases hrf : env.read_fragment_shader with
    | error e => simp [init_step_fails, failed, hrv, hrf]
    | ok fss =>
      cases hcv : env.compile_vertex_shader with
      | error e => simp [init_step_fails, failed, hrv, hrf, hcv]
      | ok vsh =>
        cases hcf : env.compile_fragment_shader with
        | error e => simp [init_step_fails, failed, hrv, hrf, hcv, hcf]
        | ok fsh =>
          cases hlp : env.link_program with
          | error e => simp [init_step_fails, failed, hrv, hrf, hcv, hcf, hlp]
          | ok prog =>
            cases hib : init_buffers env s.geometry with
            | error e =>
              have hbf : ∃ i < 11, failed (env.check i) :=
                (init_buffers_error_iff env s.geometry).mp ⟨e, hib⟩
              simp [init_step_fails, failed, hrv, hrf, hcv, hcf, hlp, hib]
              exact hbf
            | ok t =>
              obtain ⟨vao, vbo, ind⟩ := t
              have hbf : ¬ ∃ i < 11, failed (env.check i) := by
                intro hx
                have h2 := (init_buffers_error_iff env s.geometry).mpr hx
                rw [hib] at h2
                obtain ⟨e, he⟩ := h2
                cases he
              simp [init_step_fails, failed, hrv, hrf, hcv, hcf, hlp, hib]
              intro i hi e he
              exact hbf ⟨i, hi, e, he⟩

/-- A concrete environment whose vertex-shader read fails and whose other
steps all succeed. -/
def env_fail_read : GlEnv where
  read_vertex_shader := Except.error "missing"
  read_fragment_shader := Except.ok ""
  compile_vertex_shader := Except.ok 1
  compile_fragment_shader := Except.ok 2
  link_program := Except.ok 3
  gen_vao := 4
  gen_vbo := 5
  check := fun _ => Except.ok ()

/-- Witness for C6's hypothesis at the concrete failing environment
`env_fail_read`: `init` reports the wrapped read error and leaves the
object unchanged. -/
theorem init_error_behavior_witness :
    (ChristmasStar.new.init env_fail_read).2
        = some "Failed reading vertex shader: missing" ∧
    (ChristmasStar.new.init env_fail_read).1 = ChristmasStar.new :=
  ⟨rfl, (init_error_behavior env_fail_read ChristmasStar.new).2
    "Failed reading vertex shader: missing" rfl⟩

/-- C7: `close` zeroes the shader-program, vertex-array and vertex-buffer
handles, is idempotent (closing twice yields the same state as closing
once), and a second `close` frees nothing: it passes only already-zeroed
names to the GL delete calls, which ignore the name 0, so no double free
occurs.  It is total on every state (it never fails and is safe after a
partial `init` failure, which leaves the handles in their prior zero
state by C6). -/
theorem close_idempotent_no_double_free (s : ChristmasStar) :
    s.close.close = s.close ∧
    close_frees s.close.resource = [] ∧
    s.close.resource.shader_program = 0 ∧
    s.close.resource.vao = 0 ∧
    s.close.resource.vbo = 0 :=
  ⟨rfl, rfl, rfl, rfl, rfl⟩

/-- On a fully successful `init`, the stored vertex count is the generated
vertex count. -/
theorem init_success_indice_num (env : GlEnv) (s : ChristmasStar)
    (h : (s.init env).2 = none) :
    (s.init env).1.resource.indice_num = ((generate_vertices s.geometry).length : Int) := by
  unfold ChristmasStar.init at h ⊢
  cases hrv : env.read_vertex_shader with
  | error e => simp [hrv] at h
  | ok vss =>
  simp only [hrv] at h ⊢
  cases hrf : env.read_fragment_shader with
  | error e => simp [hrf] at h
  | ok fss =>
  simp only [hrf] at h ⊢
  cases hcv : env.compile_vertex_shader with
  | error e => simp [hcv] at h
  | ok vsh =>
  simp only [hcv] at h ⊢
  cases hcf : env.compile_fragment_shader with
  | error e => simp [hcf] at h
  | ok fsh =>
  simp only [hcf] at h ⊢
  cases hlp : env.link_program with
  | error e => simp [hlp] at h
  | ok prog =>
  simp only [hlp] at h ⊢
  cases hib : init_buffers env s.geometry with
  | error e => simp [hib] at h
  | ok t =>
  unfold init_buffers at hib
  cases hrc : run_checks env (List.range 11) with
  | error e => rw [hrc] at hib; cases hib
  | ok u =>
  cases u
  rw [hrc] at hib
  injection hib with ht
  subst ht
  simp

/-- A concrete environment in which every step of `init` succeeds. -/
def env_all_ok : GlEnv where
  read_vertex_shader := Except.ok "vs"
  read_fragment_shader := Except.ok "fs"
  compile_vertex_shader := Except.ok 1
  compile_fragment_shader := Except.ok 2
  link_program := Except.ok 3
  gen_vao := 4
  gen_vbo := 5
  check := fun _ => Except.ok ()

/-- C10: `close` zeroes only the three handles and leaves the stored vertex
count (`indice_num`) unchanged, so after a successful `init` followed by
`close` it still holds the previously uploaded count 48 rather than zero. -/
theorem close_keeps_indice_num (s : ChristmasStar) :
    s.close.resource.indice_num = s.resource.indice_num ∧
    (∀ env, (s.init env).2 = none →
      (s.init env).1.close.resource.indice_num = 48) := by
  refine ⟨rfl, ?_⟩
  intro env h
  have h1 : (s.init env).1.close.resource.indice_num
      = (s.init env).1.resource.indice_num := rfl
  rw [h1, init_success_indice_num env s h]
  norm_num [generate_vertices, add_partial_vertices]

/-- Witness for C10's hypothesis at `env_all_ok`: `init` succeeds and the
closed object still stores the count 48. -/
theorem close_keeps_indice_num_witness :
    (ChristmasStar.new.init env_all_ok).2 = none ∧
    (ChristmasStar.new.init env_all_ok).1.close.resource.indice_num = 48 :=
  ⟨rfl, (close_keeps_indice_num ChristmasStar.new).2 env_all_ok rfl⟩
